import Mathlib

/-!
Shallow embedding of the GenoMorph genome generator
(src/generators/genome_generator.cpp, src/generators/regionGenerator.cpp and
the headers under src/include/), together with theorems checking the
documented behaviour of the program against its specification.

C++ `double` values are modelled as rationals.  The seeded mt19937
pseudo-random member `rng` is modelled as an explicit stream of uniform
draws in [0,1) threaded through every operation, so that all state is
explicit and every definition is executable.
-/

/-- The pseudo-random source: an explicit stream of uniform draws in [0,1),
modelling the seeded `std::mt19937 rng` member together with
`std::uniform_real_distribution<double> dist(0.0, 1.0)`.  An exhausted
stream keeps returning 0. -/
structure RNG where
  stream : List ℚ
deriving DecidableEq

/-- Take the next draw from the stream. -/
def RNG.next (g : RNG) : ℚ × RNG :=
  match g.stream with
  | [] => (0, ⟨[]⟩)
  | x :: rest => (x, ⟨rest⟩)

/-- One nucleotide base plus simulation metadata
(`struct BaseInfo`, src/include/genome_generator.h). -/
structure BaseInfo where
  base : Char
  repair_efficiency : ℚ
  methylation : ℚ
  coding_region : Bool
  chromatin_access : ℚ
deriving DecidableEq

/-- State and properties of a genomic region
(`struct RegionState`, src/include/regionGenerator.h). -/
structure RegionState where
  start_index : Nat
  end_index : Nat
  target_content : ℚ
  current_content : ℚ
  current_length_generated : Nat
  target_length : Nat
  region_type : String
deriving DecidableEq

/-- The single checked failure of the core: the `std::invalid_argument`
documented to be thrown by `RegionGenerator::createRegion` when the target
genome length is below the minimum viable size of 100 bases. -/
inductive ConfigError where
  | invalidArgument
deriving DecidableEq

/-- Modelled from the spec: `RegionGenerator::createRegion` has an empty body
in src/generators/regionGenerator.cpp, so this definition follows its doc
comment in src/include/regionGenerator.h ("Throws std::invalid_argument if
genomeLength is less than 100.  The function randomly decides the type of
region (coding or non-coding), its target GC or AT content, and its length
based on predefined probabilities and distributions") and spec section 4.1:
a coin flip picks the kind, the compositional target is drawn from the
kind-specific range (0.55 to 0.65 for coding, 0.35 to 0.45 for non-coding),
and the target length is a bounded draw over 50 to 500 bases, clipped so the
region never overruns the total target length. -/
def createRegion (g : RNG) (currentGenomeLength genomeLength : Nat) :
    Except ConfigError (RegionState × RNG) :=
  if genomeLength < 100 then
    .error .invalidArgument
  else
    let p1 := g.next
    let p2 := p1.2.next
    let p3 := p2.2.next
    let kind := if p1.1 < 1/2 then "coding" else "non_coding"
    let content :=
      if p1.1 < 1/2 then 55/100 + p2.1 * (1/10) else 35/100 + p2.1 * (1/10)
    let draw := 50 + (Rat.floor (p3.1 * 451)).toNat
    let target_len := min draw (genomeLength - currentGenomeLength)
    .ok ({ start_index := currentGenomeLength,
           end_index := currentGenomeLength + target_len - 1,
           target_content := content,
           current_content := 0,
           current_length_generated := 0,
           target_length := target_len,
           region_type := kind }, p3.2)

/-- The four per-nucleotide probabilities, in the source's array order
A, T, C, G (read into the locals `A_PROB`, `T_PROB`, `C_PROB`, `G_PROB`
at lines 50-53 of src/generators/genome_generator.cpp). -/
structure Probs where
  A_PROB : ℚ
  T_PROB : ℚ
  C_PROB : ℚ
  G_PROB : ℚ
deriving DecidableEq

/-- Modelled from the spec: `RegionGenerator::regionBasedBaseProbabilities`
has an empty body in src/generators/regionGenerator.cpp, so this definition
follows spec section 4.2's simple compliant policy: with `t` the region's
target G/C fraction, P(G) = P(C) = t/2 and P(A) = P(T) = (1-t)/2. -/
def regionBasedBaseProbabilities (region : RegionState) : Probs :=
  { A_PROB := (1 - region.target_content) / 2
    T_PROB := (1 - region.target_content) / 2
    C_PROB := region.target_content / 2
    G_PROB := region.target_content / 2 }

/-- The branch structure of `GenomeGenerator::generate_base`
(src/generators/genome_generator.cpp lines 58-61): select the nucleotide
whose cumulative probability interval contains the draw `r`. -/
def generate_base_select (probs : Probs) (r : ℚ) : Char :=
  if r < probs.A_PROB then 'A'
  else if r < probs.A_PROB + probs.T_PROB then 'T'
  else if r < probs.A_PROB + probs.T_PROB + probs.G_PROB then 'G'
  else 'C'

/-- `GenomeGenerator::generate_base` (src/generators/genome_generator.cpp
lines 24-62): compute the region's probabilities, draw a uniform value in
[0,1) and select the base. -/
def generate_base (g : RNG) (region : RegionState) : Char × RNG :=
  let probs := regionBasedBaseProbabilities region
  let p := g.next
  (generate_base_select probs p.1, p.2)

/-- The inner per-region loop of `GenomeGenerator::generate_sequence`
(src/generators/genome_generator.cpp lines 112-148), run for
`region.target_length` iterations: generate a base, bump the region's
running content counter when the base matches `'G'` or `'c'` (the source
literally tests lowercase `'c'`), fill in the metadata defaults, append the
base and bump the region's emitted count. -/
def emit_bases : RNG → RegionState → Nat → List BaseInfo × RegionState × RNG
  | g, region, 0 => ([], region, g)
  | g, region, n + 1 =>
    let p := generate_base g region
    let region1 :=
      if p.1 == 'G' || p.1 == 'c' then
        { region with
            current_content :=
              region.current_content + 1 / (region.target_length : ℚ) }
      else region
    let info : BaseInfo :=
      { base := p.1
        repair_efficiency := 1
        methylation := 0
        coding_region := region.region_type == "coding"
        chromatin_access := 0 }
    let region2 :=
      { region1 with
          current_length_generated := region1.current_length_generated + 1 }
    let rest := emit_bases p.2 region2 n
    (info :: rest.1, rest.2)

/-- The outer while loop of `GenomeGenerator::generate_sequence`
(src/generators/genome_generator.cpp lines 101-159): while
`total_generated < length`, create a region, emit its bases, and advance
`total_generated` by the region's target length.  The loop is expressed with
explicit fuel; `length - total_generated` units suffice because every region
created with `total_generated < length` has target length at least 1. -/
def gen_loop : RNG → Nat → Nat → Nat → Except ConfigError (List BaseInfo)
  | _, _, _, 0 => .ok []
  | g, total_generated, length, fuel + 1 =>
    if total_generated < length then
      match createRegion g total_generated length with
      | .error e => .error e
      | .ok (region, g1) =>
        let out := emit_bases g1 region region.target_length
        match gen_loop out.2.2 (total_generated + region.target_length) length fuel with
        | .error e => .error e
        | .ok rest => .ok (out.1 ++ rest)
    else .ok []

/-- `GenomeGenerator::generate_sequence` without the trailing export call:
the sequence-building part of src/generators/genome_generator.cpp
lines 72-159. -/
def generate_sequence (g : RNG) (total_generated length : Nat) :
    Except ConfigError (List BaseInfo) :=
  gen_loop g total_generated length (length - total_generated)

/-- The complement of a single base: the switch statement of
`GenomeGenerator::ComplementaryStrand` (src/generators/genome_generator.cpp
lines 178-194); bases outside the four canonical symbols map to the unknown
marker `'N'`. -/
def complement_char (c : Char) : Char :=
  match c with
  | 'A' => 'T'
  | 'T' => 'A'
  | 'C' => 'G'
  | 'G' => 'C'
  | _ => 'N'

/-- `GenomeGenerator::ComplementaryStrand` (src/generators/genome_generator.cpp
lines 171-205): copy every base's metadata, replacing only the base identity
with its complement. -/
def ComplementaryStrand (original : List BaseInfo) : List BaseInfo :=
  original.map fun base_info => { base_info with base := complement_char base_info.base }

/-- Whether the destination file of the export can be opened:
the observable state behind `outfile.is_open()` in
`GenomeGenerator::rtfGenome` (src/generators/genome_generator.cpp line 217). -/
structure FileSystem where
  canOpen : Bool
deriving DecidableEq

/-- Outcome of the export: either the rendered RTF content was written, or
opening the destination failed and an error message was reported. -/
inductive ExportOutcome where
  | written (content : String)
  | openFailed
deriving DecidableEq

/-- The per-base body of the render loop in `GenomeGenerator::rtfGenome`
(src/generators/genome_generator.cpp lines 235-247): a colour code per
nucleotide, and a line break after every 80th base. -/
def rtfBaseChunk (i : Nat) (base : Char) : String :=
  (match base with
   | 'A' => "\\cf1 " ++ base.toString
   | 'T' => "\\cf2 " ++ base.toString
   | 'G' => "\\cf3 " ++ base.toString
   | 'C' => "\\cf4 " ++ base.toString
   | _ => base.toString)
  ++ (if (i + 1) % 80 == 0 then "\\line\n" else "")

/-- The full RTF document written by `GenomeGenerator::rtfGenome`
(src/generators/genome_generator.cpp lines 222-249). -/
def rtfRender (sequence : List BaseInfo) : String :=
  "\x7b\\rtf1\\ansi\\deff0\n" ++
  "\x7b\\fonttbl\x7b\\f0 Courier New;\x7d\x7d\n" ++
  "\x7b\\colortbl;\\red255\\green0\\blue0;\\red0\\green0\\blue255;\\red0\\green200\\blue0;\\red255\\green165\\blue0;\x7d\n" ++
  "\\f0\\fs20\n" ++ "Colored DNA Sequence:\\line\n" ++
  String.join (sequence.enum.map fun p => rtfBaseChunk p.1 p.2.base) ++
  "\\cf0\\line\n\x7d\n"

/-- `GenomeGenerator::rtfGenome` (src/generators/genome_generator.cpp
lines 214-253): if the destination cannot be opened, report the failure and
return without writing; otherwise write the rendered document. -/
def rtfGenome (sequence : List BaseInfo) (fs : FileSystem) : ExportOutcome :=
  if fs.canOpen then .written (rtfRender sequence) else .openFailed

/-- `GenomeGenerator::generate_sequence` including its trailing call to
`rtfGenome` (src/generators/genome_generator.cpp lines 160-161): the pair
of the returned sequence and the export outcome (`none` when generation
failed before the export was attempted). -/
def generate_sequence_full (g : RNG) (total_generated length : Nat)
    (fs : FileSystem) :
    Except ConfigError (List BaseInfo) × Option ExportOutcome :=
  match generate_sequence g total_generated length with
  | .error e => (.error e, none)
  | .ok s => (.ok s, some (rtfGenome s fs))

/-- A concrete one-base coding region, as produced by
`createRegion ⟨[0, 0, 0]⟩ 99 100`: used as the concrete input of several
witnesses. -/
def region0 : RegionState :=
  { start_index := 99
    end_index := 99
    target_content := 11/20
    current_content := 0
    current_length_generated := 0
    target_length := 1
    region_type := "coding" }

/-! ### Helper lemmas -/

lemma emit_bases_length (g : RNG) (region : RegionState) (n : Nat) :
    (emit_bases g region n).1.length = n := by
  induction n generalizing g region with
  | zero => rfl
  | succ n ih => simp [emit_bases, ih]

lemma generate_base_select_canonical (p : Probs) (r : ℚ) :
    generate_base_select p r = 'A' ∨ generate_base_select p r = 'T' ∨
    generate_base_select p r = 'G' ∨ generate_base_select p r = 'C' := by
  unfold generate_base_select
  split_ifs <;> simp

lemma emit_bases_mem (g : RNG) (region : RegionState) (n : Nat) :
    ∀ b ∈ (emit_bases g region n).1,
      (b.base = 'A' ∨ b.base = 'T' ∨ b.base = 'G' ∨ b.base = 'C') ∧
      b.coding_region = (region.region_type == "coding") ∧
      b.repair_efficiency = 1 ∧ b.methylation = 0 ∧ b.chromatin_access = 0 := by
  induction n generalizing g region with
  | zero => intro b hb; simp [emit_bases] at hb
  | succ n ih =>
    intro b hb
    rcases hgc : (generate_base g region).1 == 'G' || (generate_base g region).1 == 'c' with h | h
    all_goals simp only [emit_bases, hgc, Bool.false_eq_true, if_false, if_true,
      List.mem_cons] at hb
    all_goals rcases hb with rfl | hb
    · exact ⟨by
        have := generate_base_select_canonical
          (regionBasedBaseProbabilities region) (g.next).1
        simpa [generate_base] using this, rfl, rfl, rfl, rfl⟩
    · have H := ih _ _ b hb
      exact H
    · exact ⟨by
        have := generate_base_select_canonical
          (regionBasedBaseProbabilities region) (g.next).1
        simpa [generate_base] using this, rfl, rfl, rfl, rfl⟩
    · have H := ih _ _ b hb
      exact H

lemma gen_loop_mem (fuel : Nat) :
    ∀ g total_generated length s, gen_loop g total_generated length fuel = .ok s →
      ∀ b ∈ s, (b.base = 'A' ∨ b.base = 'T' ∨ b.base = 'G' ∨ b.base = 'C') ∧
        b.repair_efficiency = 1 ∧ b.methylation = 0 ∧ b.chromatin_access = 0 := by
  induction fuel with
  | zero =>
    intro g total_generated length s hs b hb
    simp only [gen_loop] at hs
    injection hs with h
    subst h
    simp at hb
  | succ fuel ih =>
    intro g total_generated length s hs b hb
    rw [gen_loop] at hs
    split at hs
    · rcases hcr : createRegion g total_generated length with e | pr
      · rw [hcr] at hs; simp at hs
      · obtain ⟨region, g1⟩ := pr
        simp only [hcr] at hs
        rcases hrec : gen_loop (emit_bases g1 region region.target_length).2.2
            (total_generated + region.target_length) length fuel with e | rest
        · rw [hrec] at hs; simp at hs
        · rw [hrec] at hs
          injection hs with h
          subst h
          rcases List.mem_append.mp hb with h | h
          · exact ⟨(emit_bases_mem _ _ _ b h).1, (emit_bases_mem _ _ _ b h).2.2⟩
          · exact ih _ _ _ _ hrec b h
    · injection hs with h
      subst h
      simp at hb

lemma createRegion_spec (g : RNG) (total_generated length : Nat)
    (h100 : 100 ≤ length) (hlt : total_generated < length) :
    ∃ R g3, createRegion g total_generated length = .ok (R, g3) ∧
      1 ≤ R.target_length ∧ total_generated + R.target_length ≤ length := by
  unfold createRegion
  rw [if_neg (by omega)]
  refine ⟨_, _, rfl, ?_, ?_⟩ <;>
  · dsimp only
    omega

lemma gen_loop_ok (fuel : Nat) :
    ∀ g total_generated length, 100 ≤ length → length - total_generated ≤ fuel →
      ∃ s, gen_loop g total_generated length fuel = .ok s ∧
        s.length = length - total_generated := by
  induction fuel with
  | zero =>
    intro g total_generated length h100 hf
    refine ⟨[], rfl, ?_⟩
    simp only [List.length_nil]
    omega
  | succ fuel ih =>
    intro g total_generated length h100 hf
    by_cases hlt : total_generated < length
    · obtain ⟨R, g3, hcr, h1, h2⟩ := createRegion_spec g total_generated length h100 hlt
      obtain ⟨rest, hrest, hlen⟩ :=
        ih (emit_bases g3 R R.target_length).2.2 (total_generated + R.target_length)
          length h100 (by omega)
      refine ⟨(emit_bases g3 R R.target_length).1 ++ rest, ?_, ?_⟩
      · rw [gen_loop, if_pos hlt]
        simp only [hcr, hrest]
      · rw [List.length_append, emit_bases_length, hlen]
        omega
    · refine ⟨[], ?_, ?_⟩
      · rw [gen_loop, if_neg hlt]
      · simp only [List.length_nil]
        omega

lemma generate_below_min (g : RNG) (length : Nat) (h1 : 1 ≤ length)
    (h2 : length < 100) :
    generate_sequence g 0 length = .error .invalidArgument := by
  obtain ⟨m, rfl⟩ : ∃ m, length = m + 1 := ⟨length - 1, by omega⟩
  unfold generate_sequence
  rw [Nat.sub_zero, gen_loop, if_pos (by omega)]
  simp only [createRegion, if_pos h2]

lemma complement_char_canonical_involutive (c : Char)
    (h : c = 'A' ∨ c = 'T' ∨ c = 'G' ∨ c = 'C') :
    complement_char (complement_char c) = c := by
  rcases h with rfl | rfl | rfl | rfl <;> rfl

lemma ComplementaryStrand_cons (a : BaseInfo) (t : List BaseInfo) :
    ComplementaryStrand (a :: t) =
      { a with base := complement_char a.base } :: ComplementaryStrand t := rfl

/-! ### Claim theorems -/

/-- C1: for every valid target length at or above the minimum of 100 bases,
the sequence returned by `generate_sequence` has exactly `target_length`
bases — the generation loop neither overshoots nor undershoots the target,
because every region's length is clipped so the cumulative region lengths
land exactly on the target. -/
theorem generate_sequence_length_exact (g : RNG) (target_length : Nat)
    (h : 100 ≤ target_length) :
    (generate_sequence g 0 target_length).map List.length = .ok target_length := by
  obtain ⟨s, hs, hl⟩ := gen_loop_ok (target_length - 0) g 0 target_length h (le_refl _)
  unfold generate_sequence
  rw [hs]
  simp only [Except.map, hl, Nat.sub_zero]

/-- Witness for C1 at the boundary length 100 with a concrete generator. -/
theorem generate_sequence_length_exact_witness :
    100 ≤ 100 ∧ (generate_sequence ⟨[]⟩ 0 100).map List.length = .ok 100 :=
  ⟨by decide, generate_sequence_length_exact ⟨[]⟩ 100 (by decide)⟩

/-- C2 counterexample: with target length 0 — below the minimum of 100 — the
generation loop is never entered, so `generate_sequence` returns an empty
sequence without raising the configuration error, refuting "fails exactly
when the supplied target length is below the minimum". -/
theorem generate_zero_no_error :
    (0 : Nat) < 100 ∧ generate_sequence ⟨[]⟩ 0 0 = .ok [] :=
  ⟨by decide, rfl⟩

/-- C2 (amended): for positive target lengths, generation fails with the
configuration error exactly when the target length is below the minimum
viable genome size of 100 bases: it fails below 100 and succeeds at or above
100.  The error is raised by the first region-planning call, before any base
is produced (the error value carries no partial output), and it is the only
checked failure.  For target length 0 the loop body never runs, so no error
is raised. -/
theorem generate_config_error_iff (g : RNG) (target_length : Nat)
    (h : 1 ≤ target_length) :
    (target_length < 100 →
      generate_sequence g 0 target_length = .error .invalidArgument) ∧
    (100 ≤ target_length →
      ∃ s, generate_sequence g 0 target_length = .ok s ∧
        s.length = target_length) := by
  constructor
  · intro h2
    exact generate_below_min g target_length h h2
  · intro h2
    obtain ⟨s, hs, hl⟩ := gen_loop_ok (target_length - 0) g 0 target_length h2 (le_refl _)
    exact ⟨s, hs, by omega⟩

/-- Witness for C2 at the boundary: `generate(99)` fails with the
configuration error. -/
theorem generate_config_error_iff_witness :
    1 ≤ 99 ∧ generate_sequence ⟨[]⟩ 0 99 = .error .invalidArgument :=
  ⟨by decide, (generate_config_error_iff ⟨[]⟩ 99 (by decide)).1 (by decide)⟩

/-- C3: the running compositional counter misses C bases.  In the concrete
one-base coding region `region0` (exactly what `createRegion ⟨[0,0,0]⟩ 99 100`
produces), the draw 9/10 makes the sampler return 'C', so the G/C fraction
of the span is 1, yet `current_content` remains 0: line 121 of
src/generators/genome_generator.cpp tests `base.base == 'G' || base.base == 'c'`
with a lowercase 'c' although `generate_base` only ever returns uppercase
symbols, contradicting the source's own comment "Increments current_content
if the base is G or C". -/
theorem content_counter_misses_C :
    (emit_bases ⟨[9/10]⟩ region0 1).1.map BaseInfo.base = ['C'] ∧
    (emit_bases ⟨[9/10]⟩ region0 1).2.1.current_content = 0 ∧
    (((emit_bases ⟨[9/10]⟩ region0 1).1.countP
        fun b => b.base == 'G' || b.base == 'C' : Nat) : ℚ) /
      (region0.target_length : ℚ) = 1 ∧
    (emit_bases ⟨[9/10]⟩ region0 1).2.1.current_content ≠
      (((emit_bases ⟨[9/10]⟩ region0 1).1.countP
        fun b => b.base == 'G' || b.base == 'C' : Nat) : ℚ) /
      (region0.target_length : ℚ) := by
  have h2 : (emit_bases ⟨[9/10]⟩ region0 1).2.1.current_content = 0 := by
    with_unfolding_all rfl
  have h3 : (((emit_bases ⟨[9/10]⟩ region0 1).1.countP
      fun b => b.base == 'G' || b.base == 'C' : Nat) : ℚ) /
      (region0.target_length : ℚ) = 1 := by
    with_unfolding_all rfl
  refine ⟨by with_unfolding_all rfl, h2, h3, ?_⟩
  rw [h2, h3]
  norm_num

/-- C4: complement is an involution on sequences whose bases are all
canonical symbols, and the unknown marker 'N' is idempotent under the
per-base complement. -/
theorem complement_involution (s : List BaseInfo)
    (h : s.all (fun b => b.base == 'A' || b.base == 'T' || b.base == 'G' ||
      b.base == 'C') = true) :
    ComplementaryStrand (ComplementaryStrand s) = s ∧
    complement_char 'N' = 'N' := by
  refine ⟨?_, rfl⟩
  revert h
  induction s with
  | nil => intro h; rfl
  | cons a t ih =>
    intro h
    simp only [List.all_cons, Bool.and_eq_true] at h
    have hbase : complement_char (complement_char a.base) = a.base := by
      apply complement_char_canonical_involutive
      have := h.1
      simp only [Bool.or_eq_true, beq_iff_eq] at this
      tauto
    show ({ a with base := complement_char (complement_char a.base) } ::
      ComplementaryStrand (ComplementaryStrand t)) = a :: t
    rw [hbase, ih h.2]

/-- Witness for C4 on a concrete canonical one-base sequence. -/
theorem complement_involution_witness :
    ([(⟨'A', 1, 0, true, 0⟩ : BaseInfo)].all
      (fun b => b.base == 'A' || b.base == 'T' || b.base == 'G' ||
        b.base == 'C') = true) ∧
    (ComplementaryStrand (ComplementaryStrand [(⟨'A', 1, 0, true, 0⟩ : BaseInfo)]) =
      [(⟨'A', 1, 0, true, 0⟩ : BaseInfo)] ∧
      complement_char 'N' = 'N') :=
  ⟨rfl, complement_involution _ rfl⟩

/-- C5: every base produced by `generate_sequence` has one of the four
canonical nucleotide identities, and for every draw value and every
probability vector the per-base selector returns one of the four symbols. -/
theorem generate_bases_canonical (g : RNG) (total_generated target_length : Nat)
    (s : List BaseInfo)
    (hs : generate_sequence g total_generated target_length = .ok s)
    (b : BaseInfo) (hb : b ∈ s) :
    (b.base = 'A' ∨ b.base = 'T' ∨ b.base = 'G' ∨ b.base = 'C') ∧
    ∀ (p : Probs) (r : ℚ),
      generate_base_select p r = 'A' ∨ generate_base_select p r = 'T' ∨
      generate_base_select p r = 'G' ∨ generate_base_select p r = 'C' :=
  ⟨(gen_loop_mem _ _ _ _ _ hs b hb).1,
    fun p r => generate_base_select_canonical p r⟩

/-- Witness for C5 on the concrete one-base run starting at offset 99. -/
theorem generate_bases_canonical_witness :
    generate_sequence ⟨[]⟩ 99 100 = .ok [(⟨'A', 1, 0, true, 0⟩ : BaseInfo)] ∧
    ((⟨'A', 1, 0, true, 0⟩ : BaseInfo).base = 'A' ∨
      (⟨'A', 1, 0, true, 0⟩ : BaseInfo).base = 'T' ∨
      (⟨'A', 1, 0, true, 0⟩ : BaseInfo).base = 'G' ∨
      (⟨'A', 1, 0, true, 0⟩ : BaseInfo).base = 'C') :=
  ⟨by with_unfolding_all rfl,
    (generate_bases_canonical ⟨[]⟩ 99 100 [⟨'A', 1, 0, true, 0⟩]
      (by with_unfolding_all rfl) ⟨'A', 1, 0, true, 0⟩ (List.Mem.head _)).1⟩

/-- C6: generation is deterministic given a seed — two `generate_sequence`
calls whose pseudo-random generator states are identical produce identical
sequences, same bases and same metadata position by position.  The embedding
threads the generator state explicitly, so the output is a function of that
state alone. -/
theorem generate_deterministic (g1 g2 : RNG)
    (total_generated target_length : Nat) (h : g1 = g2) :
    generate_sequence g1 total_generated target_length =
      generate_sequence g2 total_generated target_length := by
  rw [h]

/-- Witness for C6 with two identically seeded concrete generators. -/
theorem generate_deterministic_witness :
    (⟨[3/10, 7/10]⟩ : RNG) = ⟨[3/10, 7/10]⟩ ∧
    generate_sequence ⟨[3/10, 7/10]⟩ 0 100 =
      generate_sequence ⟨[3/10, 7/10]⟩ 0 100 :=
  ⟨rfl, generate_deterministic ⟨[3/10, 7/10]⟩ ⟨[3/10, 7/10]⟩ 0 100 rfl⟩

/-- C7: every base created inside the generation loop carries the fixed
metadata defaults — repair efficiency 1.0, methylation 0.0, chromatin
accessibility 0.0 — and its coding flag is set exactly when the region it
was generated in has the coding kind; in particular every base of a
successful `generate_sequence` run carries the three defaults. -/
theorem base_metadata_defaults (g : RNG) (region : RegionState) (n : Nat)
    (b : BaseInfo) (hb : b ∈ (emit_bases g region n).1) :
    (b.coding_region = (region.region_type == "coding") ∧
      b.repair_efficiency = 1 ∧ b.methylation = 0 ∧ b.chromatin_access = 0) ∧
    ∀ (g2 : RNG) (total_generated target_length : Nat) (s : List BaseInfo),
      generate_sequence g2 total_generated target_length = .ok s →
      ∀ b2 ∈ s, b2.repair_efficiency = 1 ∧ b2.methylation = 0 ∧
        b2.chromatin_access = 0 :=
  ⟨(emit_bases_mem g region n b hb).2,
    fun _ _ _ _ hs b2 hb2 => (gen_loop_mem _ _ _ _ _ hs b2 hb2).2⟩

/-- Witness for C7 on the concrete one-base region `region0`. -/
theorem base_metadata_defaults_witness :
    (⟨'A', 1, 0, true, 0⟩ : BaseInfo) ∈ (emit_bases ⟨[]⟩ region0 1).1 ∧
    ((⟨'A', 1, 0, true, 0⟩ : BaseInfo).coding_region =
        (region0.region_type == "coding") ∧
      (⟨'A', 1, 0, true, 0⟩ : BaseInfo).repair_efficiency = 1 ∧
      (⟨'A', 1, 0, true, 0⟩ : BaseInfo).methylation = 0 ∧
      (⟨'A', 1, 0, true, 0⟩ : BaseInfo).chromatin_access = 0) :=
  ⟨by with_unfolding_all exact List.Mem.head _,
    (base_metadata_defaults ⟨[]⟩ region0 1 ⟨'A', 1, 0, true, 0⟩
      (by with_unfolding_all exact List.Mem.head _)).1⟩

/-- C8: `ComplementaryStrand` returns a new sequence of identical length in
the same order and copies every non-identity metadata field — coding flag,
repair efficiency, methylation, chromatin accessibility — of each base
unchanged into the corresponding output position; as a pure function of its
input it does not mutate the original sequence. -/
theorem complementary_strand_frame (s : List BaseInfo) :
    (ComplementaryStrand s).length = s.length ∧
    (ComplementaryStrand s).map BaseInfo.coding_region =
      s.map BaseInfo.coding_region ∧
    (ComplementaryStrand s).map BaseInfo.repair_efficiency =
      s.map BaseInfo.repair_efficiency ∧
    (ComplementaryStrand s).map BaseInfo.methylation =
      s.map BaseInfo.methylation ∧
    (ComplementaryStrand s).map BaseInfo.chromatin_access =
      s.map BaseInfo.chromatin_access := by
  induction s with
  | nil => exact ⟨rfl, rfl, rfl, rfl, rfl⟩
  | cons a t ih =>
    simp only [ComplementaryStrand_cons, List.length_cons, List.map_cons]
    exact ⟨by rw [ih.1], by rw [ih.2.1], by rw [ih.2.2.1],
      by rw [ih.2.2.2.1], by rw [ih.2.2.2.2]⟩

/-- C9: the export outcome never affects the returned sequence.  The first
component of `generate_sequence_full` equals the in-memory sequence computed
by the generation loop whatever the file-system state — so the sequence is
neither corrupted nor truncated by a failed export — and when the
destination cannot be opened the failure stays with the export collaborator
as a reported open failure rather than a core error. -/
theorem export_failure_preserves_sequence (g : RNG)
    (total_generated target_length : Nat) (fs : FileSystem) :
    (generate_sequence_full g total_generated target_length fs).1 =
      generate_sequence g total_generated target_length ∧
    ∀ s, generate_sequence g total_generated target_length = .ok s →
      fs.canOpen = false →
      (generate_sequence_full g total_generated target_length fs).2 =
        some ExportOutcome.openFailed := by
  constructor
  · rcases h : generate_sequence g total_generated target_length with e | s <;>
      simp [generate_sequence_full, h]
  · intro s hs hopen
    simp [generate_sequence_full, hs, rtfGenome, hopen]

/-- Witness for C9 on the concrete one-base run with an unopenable
destination. -/
theorem export_failure_preserves_sequence_witness :
    generate_sequence ⟨[]⟩ 99 100 = .ok [(⟨'A', 1, 0, true, 0⟩ : BaseInfo)] ∧
    FileSystem.canOpen ⟨false⟩ = false ∧
    (generate_sequence_full ⟨[]⟩ 99 100 ⟨false⟩).2 =
      some ExportOutcome.openFailed :=
  ⟨by with_unfolding_all rfl, rfl,
    (export_failure_preserves_sequence ⟨[]⟩ 99 100 ⟨false⟩).2 _
      (by with_unfolding_all rfl) rfl⟩

/-- C10: the per-base selector never reads the third probability entry
`C_PROB` — any two probability vectors agreeing on the A, T and G entries
yield the same nucleotide for every draw — and, for nonnegative T and G
entries, the selector returns 'C' exactly when the draw is at least the sum
of the A, T and G entries, so C receives the residual probability mass. -/
theorem generate_base_select_ignores_C_PROB (p q : Probs) (r : ℚ)
    (ha : p.A_PROB = q.A_PROB) (ht : p.T_PROB = q.T_PROB)
    (hg : p.G_PROB = q.G_PROB) (hnt : 0 ≤ p.T_PROB) (hng : 0 ≤ p.G_PROB) :
    generate_base_select p r = generate_base_select q r ∧
    (generate_base_select p r = 'C' ↔
      p.A_PROB + p.T_PROB + p.G_PROB ≤ r) := by
  constructor
  · unfold generate_base_select
    rw [ha, ht, hg]
  · unfold generate_base_select
    split_ifs with h1 h2 h3
    · constructor
      · intro hc
        exact absurd hc (by decide)
      · intro hc
        exfalso
        linarith
    · constructor
      · intro hc
        exact absurd hc (by decide)
      · intro hc
        exfalso
        linarith
    · constructor
      · intro hc
        exact absurd hc (by decide)
      · intro hc
        exfalso
        linarith
    · exact ⟨fun _ => not_lt.mp h3, fun _ => rfl⟩

/-- Witness for C10 with two concrete vectors differing only in `C_PROB`. -/
theorem generate_base_select_ignores_C_PROB_witness :
    Probs.A_PROB ⟨1/4, 1/4, 1/4, 1/4⟩ = Probs.A_PROB ⟨1/4, 1/4, 9/10, 1/4⟩ ∧
    (0 : ℚ) ≤ Probs.T_PROB ⟨1/4, 1/4, 1/4, 1/4⟩ ∧
    (generate_base_select ⟨1/4, 1/4, 1/4, 1/4⟩ (4/5) =
        generate_base_select ⟨1/4, 1/4, 9/10, 1/4⟩ (4/5) ∧
      (generate_base_select ⟨1/4, 1/4, 1/4, 1/4⟩ (4/5) = 'C' ↔
        Probs.A_PROB ⟨1/4, 1/4, 1/4, 1/4⟩ + Probs.T_PROB ⟨1/4, 1/4, 1/4, 1/4⟩ +
          Probs.G_PROB ⟨1/4, 1/4, 1/4, 1/4⟩ ≤ (4/5 : ℚ))) :=
  ⟨rfl, by with_unfolding_all decide,
    generate_base_select_ignores_C_PROB ⟨1/4, 1/4, 1/4, 1/4⟩
      ⟨1/4, 1/4, 9/10, 1/4⟩ (4/5) rfl rfl rfl (by with_unfolding_all decide)
      (by with_unfolding_all decide)⟩
